import Mathlib

/-!
Shallow embedding of the self-healing monitor (src/module.py).

The external world (GitHub REST API) is modelled by `Env`: a response for the
identity endpoint, a map from GET url to response, and a map from POST url to
status code.  `Except String _` models a raised transport/parse fault.
Timestamps are integers (seconds); the 8-hour threshold is 28800 seconds.
Every operation that performs remote calls also returns a `Trace` of events:
`httpGet`/`httpPost` for requests it issues, and the orchestrator loop marks
its component invocations with `stepCheck`/`stepAnalyze`/`stepHeal`/`stepUpdate`.
Python float arithmetic for the success rate is modelled exactly over `ℚ`.
-/

namespace SelfHealing

/-- One workflow run record: `created_at` (parsed timestamp) and `conclusion`
(`none` models an absent field, as the dict get of the conclusion key reads it). -/
structure RunRecord where
  createdAt : Int
  conclusion : Option String
  deriving DecidableEq, Repr

/-- Parsed body of a successful GET: the status code plus the
`workflow_runs` / `workflows` fields (defaulting to `[]` as in
`response.json().get(..., [])`). -/
structure GetData where
  status : Nat
  workflow_runs : List RunRecord := []
  workflows : List Nat := []
  deriving DecidableEq, Repr

/-- The external world: current time, the response of the identity endpoint
(status code and optional `login` field), and per-url GET/POST responses.
`Except.error` models a raised exception during the call. -/
structure Env where
  now : Int
  userResp : Except String (Nat × Option String)
  getResp : String → Except String GetData
  postResp : String → Except String Nat

/-- Result of `check_agent_health`: the health dict.  Absent keys are `none`. -/
structure HealthStatus where
  healthy : Bool
  failure_type : Option String := none
  last_success : Option Int := none
  error_details : Option String := none
  deriving DecidableEq, Repr

/-- One entry of the `failed_agents` list built by `detect_failed_agents`. -/
structure FailedAgent where
  repo : String
  failure_type : String
  last_success : Option Int
  error_details : String
  deriving DecidableEq, Repr

/-- One entry of the healing-strategies table. -/
structure StrategyDescriptor where
  name : String
  action : String
  success_rate : Nat
  deriving DecidableEq, Repr

/-- Result dict of `heal_agent`. -/
structure HealingResult where
  repo : String
  success : Bool
  strategy_used : Option String := none
  error : Option String := none
  deriving DecidableEq, Repr

/-- Result dict of `analyze_failures`; `failure_types` is the Python dict as an
insertion-ordered association list with unique keys. -/
structure FailureAnalysis where
  total_failures : Nat
  failure_types : List (String × Nat)
  patterns : List String
  deriving DecidableEq, Repr

/-- Observable events of one cycle: HTTP requests issued by the leaf helpers,
and the component invocations of the orchestrator. -/
inductive Event where
  | httpGet (url : String)
  | httpPost (url : String)
  | stepCheck (repo : String)
  | stepAnalyze
  | stepHeal (repo : String)
  | stepUpdate
  deriving DecidableEq, Repr

abbrev Trace := List Event

/-- Instance state of `SelfHealingSystem`: the token and the strategy table. -/
structure SelfHealingSystem where
  token : String
  healing_strategies : List (String × StrategyDescriptor)
  deriving DecidableEq, Repr

/-- Embeds `load_healing_strategies` (src/module.py:204-227). -/
def load_healing_strategies : List (String × StrategyDescriptor) :=
  [("schedule_failure", ⟨"Schedule Recovery", "trigger_manual_run", 85⟩),
   ("execution_failure", ⟨"Execution Recovery", "fix_execution_error", 70⟩),
   ("api_error", ⟨"API Recovery", "fix_api_issue", 60⟩),
   ("default", ⟨"Default Recovery", "apply_default_healing", 50⟩)]

/-- Embeds `__init__` (src/module.py:10-13): stores the token and loads the table. -/
def SelfHealingSystem.init (github_token : String) : SelfHealingSystem :=
  { token := github_token, healing_strategies := load_healing_strategies }

def userUrl : String := "https://api.github.com/user"

def runsUrl (user repo : String) : String :=
  "https://api.github.com/repos/" ++ user ++ "/" ++ repo ++ "/actions/runs"

def workflowsUrl (user repo : String) : String :=
  "https://api.github.com/repos/" ++ user ++ "/" ++ repo ++ "/actions/workflows"

def dispatchUrl (user repo : String) (workflow_id : Nat) : String :=
  "https://api.github.com/repos/" ++ user ++ "/" ++ repo ++
    "/actions/workflows/" ++ toString workflow_id ++ "/dispatches"

/-- Embeds `get_username` (src/module.py:244-252): `login` on a 200 response, else the
literal "unknown"; a missing `login` key or a fault also yields "unknown". -/
def get_username (env : Env) : String :=
  match env.userResp with
  | .ok (status, login) =>
      if status = 200 then
        match login with
        | some l => l
        | none => "unknown"
      else "unknown"
  | .error _ => "unknown"

/-- Embeds `get_all_agent_repos` (src/module.py:229-235). -/
def get_all_agent_repos : List String :=
  ["github-arbitrage-agent", "ai-wrapper-factory", "saas-template-mill",
   "automation-broker", "crypto-degen-bot", "influencer-farm",
   "course-generator", "patent-scraper", "domain-flipper"]

/-- Embeds `find_last_successful_run` (src/module.py:237-242): first record in
received order with conclusion "success", or `None`. -/
def find_last_successful_run : List RunRecord → Option Int
  | [] => none
  | r :: rest =>
      if r.conclusion = some "success" then some r.createdAt
      else find_last_successful_run rest

/-- Classification logic of `check_agent_health` (src/module.py:59-102) applied
to the fetched response; the HTTP call itself is performed by
`check_agent_health` below. -/
def check_core (now : Int) (resp : Except String GetData) : HealthStatus :=
  match resp with
  | .error e =>
      { healthy := false, failure_type := some "exception",
        error_details := some e, last_success := none }
  | .ok d =>
      if d.status = 200 then
        match d.workflow_runs with
        | latest :: rest =>
            if now - latest.createdAt > 8 * 3600 then
              { healthy := false, failure_type := some "schedule_failure",
                last_success := some latest.createdAt }
            else if latest.conclusion = some "failure" then
              { healthy := false, failure_type := some "execution_failure",
                last_success := find_last_successful_run (latest :: rest) }
            else { healthy := true }
        | [] =>
            { healthy := false, failure_type := some "api_error",
              last_success := none }
      else
        { healthy := false, failure_type := some "api_error",
          last_success := none }

/-- Embeds `check_agent_health` (src/module.py:59-102): resolve the username, GET the
runs url, classify.  The trace records the two GET requests. -/
def check_agent_health (env : Env) (repo : String) : HealthStatus × Trace :=
  let u := get_username env
  let url := runsUrl u repo
  (check_core env.now (env.getResp url), [Event.httpGet userUrl, Event.httpGet url])

/-- Loop body of `detect_failed_agents` (src/module.py:40-57) over a repo list;
each iteration is marked `stepCheck`. -/
def detectGo (env : Env) : List String → List FailedAgent × Trace
  | [] => ([], [])
  | repo :: rest =>
      let c := check_agent_health env repo
      let further := detectGo env rest
      let here : List FailedAgent :=
        if c.1.healthy then []
        else [{ repo := repo,
                failure_type := c.1.failure_type.getD "",
                last_success := c.1.last_success,
                error_details := c.1.error_details.getD "Unknown" }]
      (here ++ further.1, (Event.stepCheck repo :: c.2) ++ further.2)

/-- Embeds `detect_failed_agents` (src/module.py:40-57). -/
def detect_failed_agents (env : Env) : List FailedAgent × Trace :=
  detectGo env get_all_agent_repos

/-- Embeds `trigger_manual_run` (src/module.py:137-162): list workflow definitions,
dispatch the first against ref "main"; `True` only on a 204 dispatch status.
`get_username` is called again when building the dispatch url (line 149). -/
def trigger_manual_run (env : Env) (repo : String) : Bool × Trace :=
  let u := get_username env
  let wurl := workflowsUrl u repo
  let t0 : Trace := [Event.httpGet userUrl, Event.httpGet wurl]
  match env.getResp wurl with
  | .error _ => (false, t0)
  | .ok d =>
      if d.status = 200 then
        match d.workflows with
        | workflow_id :: _ =>
            let u2 := get_username env
            let durl := dispatchUrl u2 repo workflow_id
            let t1 : Trace := t0 ++ [Event.httpGet userUrl, Event.httpPost durl]
            match env.postResp durl with
            | .error _ => (false, t1)
            | .ok code => (decide (code = 204), t1)
        | [] => (false, t0)
      else (false, t0)

/-- Embeds `fix_execution_error` (src/module.py:164-167): simplified to a re-trigger. -/
def fix_execution_error (env : Env) (repo : String) : Bool × Trace :=
  trigger_manual_run env repo

/-- Embeds `fix_api_issue` (src/module.py:169-172): placeholder, always `True`. -/
def fix_api_issue (_repo : String) : Bool :=
  true

/-- Embeds `apply_default_healing` (src/module.py:174-176). -/
def apply_default_healing (env : Env) (repo : String) : Bool × Trace :=
  trigger_manual_run env repo

/-- Embeds `heal_agent` (src/module.py:104-135): look up the strategy (falling back to
the "default" entry), dispatch on the failure type, report the strategy name. -/
def heal_agent (s : SelfHealingSystem) (env : Env) (a : FailedAgent) :
    HealingResult × Trace :=
  let strat : StrategyDescriptor :=
    (s.healing_strategies.lookup a.failure_type).getD
      ((s.healing_strategies.lookup "default").getD ⟨"", "", 0⟩)
  if a.failure_type = "schedule_failure" then
    let r := trigger_manual_run env a.repo
    ({ repo := a.repo, success := r.1, strategy_used := some strat.name }, r.2)
  else if a.failure_type = "execution_failure" then
    let r := fix_execution_error env a.repo
    ({ repo := a.repo, success := r.1, strategy_used := some strat.name }, r.2)
  else if a.failure_type = "api_error" then
    ({ repo := a.repo, success := fix_api_issue a.repo,
       strategy_used := some strat.name }, [])
  else
    let r := apply_default_healing env a.repo
    ({ repo := a.repo, success := r.1, strategy_used := some strat.name }, r.2)

/-- Healing loop of `monitor_and_heal` (src/module.py:26-29); each iteration is
marked `stepHeal`. -/
def healGo (s : SelfHealingSystem) (env : Env) :
    List FailedAgent → List HealingResult × Trace
  | [] => ([], [])
  | a :: rest =>
      let h := heal_agent s env a
      let further := healGo s env rest
      (h.1 :: further.1, (Event.stepHeal a.repo :: h.2) ++ further.2)

/-- Dict update `d[ft] = d.get(ft, 0) + 1` on an association list. -/
def bumpCount : List (String × Nat) → String → List (String × Nat)
  | [], ft => [(ft, 1)]
  | (k, v) :: rest, ft =>
      if k = ft then (k, v + 1) :: rest
      else (k, v) :: bumpCount rest ft

def scheduleFailurePattern : String :=
  "Multiple schedule failures - check GitHub Actions limits"

def executionFailurePattern : String :=
  "Multiple execution failures - check code quality"

/-- Embeds `analyze_failures` (src/module.py:178-197): pure aggregation of failure
type counts plus up to two threshold pattern strings. -/
def analyze_failures (failed_agents : List FailedAgent) : FailureAnalysis :=
  let counts :=
    failed_agents.foldl (fun d a => bumpCount d a.failure_type) []
  let patterns :=
    (if (counts.lookup "schedule_failure").getD 0 > 3
     then [scheduleFailurePattern] else []) ++
    (if (counts.lookup "execution_failure").getD 0 > 2
     then [executionFailurePattern] else [])
  { total_failures := failed_agents.length,
    failure_types := counts,
    patterns := patterns }

/-- Embeds `update_healing_strategies` (src/module.py:199-202): `pass` — the state is
returned unchanged for every analysis. -/
def update_healing_strategies (s : SelfHealingSystem)
    (_analysis : FailureAnalysis) : SelfHealingSystem :=
  s

/-- Summary dict returned by `monitor_and_heal`; the Python float rate is
modelled exactly over `ℚ`. -/
structure Summary where
  failed_agents : Nat
  healed_agents : Nat
  healing_success_rate : ℚ
  deriving DecidableEq, Repr

/-- Embeds `monitor_and_heal` (src/module.py:15-38): detect, analyze, heal each failed
agent, update strategies, summarize.  Returns the (possibly updated) instance
state, the summary, and the event trace of the cycle. -/
def monitor_and_heal (s : SelfHealingSystem) (env : Env) :
    SelfHealingSystem × Summary × Trace :=
  let detected := detect_failed_agents env
  let failure_analysis := analyze_failures detected.1
  let healing := healGo s env detected.1
  let s2 := update_healing_strategies s failure_analysis
  let healed := (healing.1.filter (fun r => r.success)).length
  (s2,
   { failed_agents := detected.1.length,
     healed_agents := healed,
     healing_success_rate :=
       (healed : ℚ) / ((max healing.1.length 1 : Nat) : ℚ) * 100 },
   detected.2 ++ Event.stepAnalyze :: (healing.2 ++ [Event.stepUpdate]))

def Event.isHeal : Event → Bool
  | .stepHeal _ => true
  | _ => false

def Event.isAnalyze : Event → Bool
  | .stepAnalyze => true
  | _ => false

/-- The claimed step order: once the analyzer step has occurred, no further
remediation step appears — i.e. every heal precedes the analysis. -/
def remediationBeforeAnalysis (t : Trace) : Prop :=
  ((t.dropWhile (fun e => !e.isAnalyze)).all (fun e => !e.isHeal)) = true

/-- Sum of the per-type counts of a failure-type dict. -/
def sumCounts (l : List (String × Nat)) : Nat :=
  (l.map Prod.snd).sum

/-! ## Supporting lemmas -/

/-- Shows that `find_last_successful_run` is the first record (in received order) whose
conclusion is "success", projected to its timestamp. -/
theorem find_last_successful_run_eq_find (l : List RunRecord) :
    find_last_successful_run l =
      (l.find? (fun r => r.conclusion == some "success")).map RunRecord.createdAt := by
  induction l with
  | nil => rfl
  | cons r rest ih =>
      by_cases h : r.conclusion = some "success"
      · simp [find_last_successful_run, List.find?_cons, beq_iff_eq, h]
      · simp [find_last_successful_run, List.find?_cons, beq_iff_eq, h, ih]

/-! ## Claim theorems -/

/-- Environment in which the latest (only) run of every repository is far older than
8 hours; workflow listings are empty so re-triggering fails benignly. -/
def staleEnv : Env :=
  { now := 100000,
    userResp := .ok (200, some "user"),
    getResp := fun _ => .ok { status := 200, workflow_runs := [⟨0, some "success"⟩] },
    postResp := fun _ => .ok 204 }

/-- C1: when the fetch succeeds (status 200) with a non-empty run list and the
age of the most recent run exceeds 8 hours, `check_agent_health` reports unhealthy
with `schedule_failure` and `last_success` equal to the own timestamp of that run —
for every conclusion value of that run. -/
theorem checkHealth_stale_is_schedule_failure (env : Env) (repo : String)
    (d : GetData) (latest : RunRecord) (rest : List RunRecord)
    (hresp : env.getResp (runsUrl (get_username env) repo) = .ok d)
    (hstatus : d.status = 200)
    (hruns : d.workflow_runs = latest :: rest)
    (hold : env.now - latest.createdAt > 8 * 3600) :
    (check_agent_health env repo).1 =
      { healthy := false, failure_type := some "schedule_failure",
        last_success := some latest.createdAt } := by
  simp [check_agent_health, check_core, hresp, hstatus, hruns, hold]
  intro h2
  exact absurd h2 (by omega)

/-- Witness for C1 at a concrete environment. -/
theorem checkHealth_stale_is_schedule_failure_witness :
    (check_agent_health staleEnv "github-arbitrage-agent").1 =
      { healthy := false, failure_type := some "schedule_failure",
        last_success := some 0 } :=
  checkHealth_stale_is_schedule_failure staleEnv "github-arbitrage-agent"
    { status := 200, workflow_runs := [⟨0, some "success"⟩] }
    ⟨0, some "success"⟩ [] rfl rfl rfl (by decide)

/-- C2: when the fetch succeeds with a non-empty run list, the most recent run
is at most 8 hours old and concluded "failure", `check_agent_health` reports
`execution_failure` with `last_success` the timestamp of the first record in
fetched order whose conclusion is "success" (or `none` if there is none). -/
theorem checkHealth_recent_failure_is_execution_failure (env : Env)
    (repo : String) (d : GetData) (latest : RunRecord) (rest : List RunRecord)
    (hresp : env.getResp (runsUrl (get_username env) repo) = .ok d)
    (hstatus : d.status = 200)
    (hruns : d.workflow_runs = latest :: rest)
    (hrecent : ¬ env.now - latest.createdAt > 8 * 3600)
    (hconc : latest.conclusion = some "failure") :
    (check_agent_health env repo).1 =
      { healthy := false, failure_type := some "execution_failure",
        last_success :=
          (((latest :: rest).find? (fun r => r.conclusion == some "success")).map
            RunRecord.createdAt) } := by
  simp [check_agent_health, check_core, hresp, hstatus, hruns, hrecent, hconc,
    find_last_successful_run_eq_find]
  omega

/-- Environment whose latest run is a recent failure preceded by an older
non-success record and then a success record. -/
def recentFailureEnv : Env :=
  { now := 1000,
    userResp := .ok (200, some "user"),
    getResp := fun _ =>
      .ok { status := 200,
            workflow_runs := [⟨0, some "failure"⟩, ⟨-100, none⟩, ⟨-200, some "success"⟩] },
    postResp := fun _ => .ok 204 }

/-- Witness for C2 at a concrete environment: the run of timestamp -200 is the
first success in fetched order. -/
theorem checkHealth_recent_failure_is_execution_failure_witness :
    (check_agent_health recentFailureEnv "ai-wrapper-factory").1 =
      { healthy := false, failure_type := some "execution_failure",
        last_success := some (-200) } := by
  have h := checkHealth_recent_failure_is_execution_failure recentFailureEnv
    "ai-wrapper-factory"
    { status := 200,
      workflow_runs := [⟨0, some "failure"⟩, ⟨-100, none⟩, ⟨-200, some "success"⟩] }
    ⟨0, some "failure"⟩ [⟨-100, none⟩, ⟨-200, some "success"⟩]
    rfl rfl rfl (by decide) rfl
  simpa using h

/-- C4: healing an agent whose failure type is "api_error" reports success and
issues no HTTP request at all (the trace of the call is empty), for every
system state, environment and agent contents. -/
theorem heal_api_error_succeeds_without_remote_calls (s : SelfHealingSystem)
    (env : Env) (repo : String) (ls : Option Int) (ed : String) :
    (heal_agent s env ⟨repo, "api_error", ls, ed⟩).1.success = true ∧
    (heal_agent s env ⟨repo, "api_error", ls, ed⟩).2 = [] := by
  simp [heal_agent, fix_api_issue]

/-- C9: for a system initialized by the constructor, the healing result always
carries the `strategy_used` field: the name of the table entry for the failure type of the agent, or the name of the "default" entry ("Default Recovery") when the
failure type has no entry of its own. -/
theorem heal_reports_selected_strategy (tok : String) (env : Env)
    (a : FailedAgent) :
    (heal_agent (SelfHealingSystem.init tok) env a).1.strategy_used =
      some (match load_healing_strategies.lookup a.failure_type with
            | some d => d.name
            | none => "Default Recovery") := by
  cases h : load_healing_strategies.lookup a.failure_type with
  | some d =>
      simp only [heal_agent, SelfHealingSystem.init, h, Option.getD_some]
      split
      · rfl
      · split
        · rfl
        · split
          · rfl
          · rfl
  | none =>
      simp only [heal_agent, SelfHealingSystem.init, h, Option.getD_none]
      split
      · rfl
      · split
        · rfl
        · split
          · rfl
          · rfl

/-- C6: `trigger_manual_run` returns `True` exactly when the workflow listing
comes back with status 200 and a non-empty workflow list, and the dispatch of
the first workflow returns status 204.  Every other outcome — non-200 listing,
empty list, non-204 dispatch, or a fault (`Except.error`) in either call —
yields `False`; the function is total, so no exception reaches the caller. -/
theorem triggerManualRun_true_iff (env : Env) (repo : String) :
    (trigger_manual_run env repo).1 = true ↔
      (∃ d, env.getResp (workflowsUrl (get_username env) repo) = .ok d ∧
        d.status = 200 ∧
        ∃ workflow_id rest, d.workflows = workflow_id :: rest ∧
          env.postResp (dispatchUrl (get_username env) repo workflow_id) =
            .ok 204) := by
  cases hg : env.getResp (workflowsUrl (get_username env) repo) with
  | error e => simp [trigger_manual_run, hg]
  | ok d =>
      by_cases hs : d.status = 200
      · cases hw : d.workflows with
        | nil => simp [trigger_manual_run, hg, hs, hw]
        | cons workflow_id ws =>
            cases hp : env.postResp (dispatchUrl (get_username env) repo workflow_id) with
            | error e =>
                simp [trigger_manual_run, hg, hs, hw, hp]
            | ok code =>
                simp [trigger_manual_run, hg, hs, hw, hp]
      · simp [trigger_manual_run, hg, hs]

/-- The count of agents in a batch carrying a given failure type. -/
def failureCount (agents : List FailedAgent) (ft : String) : Nat :=
  agents.countP (fun a => a.failure_type == ft)

theorem bumpCount_lookup_self (d : List (String × Nat)) (ft : String) :
    (bumpCount d ft).lookup ft = some ((d.lookup ft).getD 0 + 1) := by
  induction d with
  | nil => simp [bumpCount, List.lookup]
  | cons p rest ih =>
      obtain ⟨k, v⟩ := p
      by_cases h : k = ft
      · subst h
        simp [bumpCount, List.lookup]
      · have hb : (ft == k) = false := by simp [Ne.symm h]
        simp [bumpCount, List.lookup, h, hb, ih]

theorem bumpCount_lookup_other (d : List (String × Nat)) (ft ft' : String)
    (h : ft' ≠ ft) :
    (bumpCount d ft).lookup ft' = d.lookup ft' := by
  induction d with
  | nil =>
      have hb : (ft' == ft) = false := by simp [h]
      simp [bumpCount, List.lookup, hb]
  | cons p rest ih =>
      obtain ⟨k, v⟩ := p
      by_cases hk : k = ft
      · subst hk
        have hb : (ft' == k) = false := by simp [h]
        simp [bumpCount, List.lookup, hb]
      · by_cases hk' : ft' = k
        · subst hk'
          simp [bumpCount, List.lookup, hk]
        · have hb : (ft' == k) = false := by simp [hk']
          simp [bumpCount, List.lookup, hk, hb, ih]

theorem foldl_bump_lookup (l : List FailedAgent) :
    ∀ (d : List (String × Nat)) (ft : String),
      ((l.foldl (fun d a => bumpCount d a.failure_type) d).lookup ft).getD 0 =
        (d.lookup ft).getD 0 + l.countP (fun a => a.failure_type == ft) := by
  induction l with
  | nil => simp
  | cons a rest ih =>
      intro d ft
      simp only [List.foldl_cons, List.countP_cons]
      rw [ih]
      by_cases h : a.failure_type = ft
      · subst h
        rw [bumpCount_lookup_self]
        simp
        omega
      · rw [bumpCount_lookup_other _ _ _ (fun he => h he.symm)]
        simp [h]

/-- The failure-type dict built by `analyze_failures` counts exactly the
occurrences of each failure type in the batch. -/
theorem analyze_counts (agents : List FailedAgent) (ft : String) :
    (((analyze_failures agents).failure_types.lookup ft).getD 0) =
      failureCount agents ft := by
  simpa [analyze_failures, failureCount] using foldl_bump_lookup agents [] ft

/-- C7: the analyzer emits the rate-limit pattern string iff the batch has
more than 3 schedule failures and the code-quality pattern string iff it has
more than 2 execution failures, the two rules firing independently; with
schedule-failure count over 3 and execution-failure count at most 2 the
patterns list is exactly the rate-limit string. -/
theorem analyze_patterns_iff (agents : List FailedAgent) :
    (scheduleFailurePattern ∈ (analyze_failures agents).patterns ↔
       failureCount agents "schedule_failure" > 3) ∧
    (executionFailurePattern ∈ (analyze_failures agents).patterns ↔
       failureCount agents "execution_failure" > 2) ∧
    (failureCount agents "schedule_failure" > 3 →
       failureCount agents "execution_failure" ≤ 2 →
       (analyze_failures agents).patterns = [scheduleFailurePattern]) := by
  have h1 := analyze_counts agents "schedule_failure"
  have h2 := analyze_counts agents "execution_failure"
  have hpat : (analyze_failures agents).patterns =
      (if failureCount agents "schedule_failure" > 3
       then [scheduleFailurePattern] else []) ++
      (if failureCount agents "execution_failure" > 2
       then [executionFailurePattern] else []) := by
    rw [← h1, ← h2]
    rfl
  have hne : scheduleFailurePattern ≠ executionFailurePattern := by decide
  refine ⟨?_, ?_, ?_⟩
  · rw [hpat]
    by_cases c1 : failureCount agents "schedule_failure" > 3 <;>
      by_cases c2 : failureCount agents "execution_failure" > 2 <;>
        simp [c1, c2, hne]
  · rw [hpat]
    by_cases c1 : failureCount agents "schedule_failure" > 3 <;>
      by_cases c2 : failureCount agents "execution_failure" > 2 <;>
        simp [c1, c2, Ne.symm hne]
  · intro c1 c2
    rw [hpat]
    simp [c1, Nat.not_lt.mpr c2]

/-- A batch of four schedule failures and one execution failure. -/
def schedHeavyBatch : List FailedAgent :=
  [⟨"github-arbitrage-agent", "schedule_failure", some 0, "Unknown"⟩,
   ⟨"ai-wrapper-factory", "schedule_failure", some 0, "Unknown"⟩,
   ⟨"saas-template-mill", "schedule_failure", none, "Unknown"⟩,
   ⟨"automation-broker", "schedule_failure", none, "Unknown"⟩,
   ⟨"crypto-degen-bot", "execution_failure", none, "Unknown"⟩]

/-- Witness for C7: on a concrete batch with 4 schedule failures and 1
execution failure the analyzer emits exactly the rate-limit pattern. -/
theorem analyze_patterns_iff_witness :
    (analyze_failures schedHeavyBatch).patterns = [scheduleFailurePattern] :=
  (analyze_patterns_iff schedHeavyBatch).2.2 (by decide) (by decide)

theorem bumpCount_sum (d : List (String × Nat)) (ft : String) :
    sumCounts (bumpCount d ft) = sumCounts d + 1 := by
  induction d with
  | nil => rfl
  | cons p rest ih =>
      obtain ⟨k, v⟩ := p
      by_cases h : k = ft
      · subst h
        simp [bumpCount, sumCounts]
        omega
      · simp [bumpCount, sumCounts, h] at ih ⊢
        omega

theorem foldl_bump_sum (l : List FailedAgent) :
    ∀ d : List (String × Nat),
      sumCounts (l.foldl (fun d a => bumpCount d a.failure_type) d) =
        sumCounts d + l.length := by
  induction l with
  | nil => simp
  | cons a rest ih =>
      intro d
      simp only [List.foldl_cons, List.length_cons]
      rw [ih, bumpCount_sum]
      omega

/-- C10: the analysis of any batch reports `total_failures` equal to the batch
length, per-type counts that sum to that total, and at most two pattern
strings; `analyze_failures` is a pure function of its input (it takes no
environment and issues no events). -/
theorem analyze_failures_invariants (agents : List FailedAgent) :
    (analyze_failures agents).total_failures = agents.length ∧
    sumCounts (analyze_failures agents).failure_types = agents.length ∧
    (analyze_failures agents).patterns.length ≤ 2 := by
  refine ⟨rfl, ?_, ?_⟩
  · simpa [analyze_failures, sumCounts] using foldl_bump_sum agents []
  · simp only [analyze_failures]
    split <;> split <;> simp

/-- C8: the strategy table is fixed at construction and never mutated:
`update_healing_strategies` returns the state unchanged for every analysis,
a whole monitor-and-heal cycle leaves the instance state unchanged, and the
constructor installs exactly `load_healing_strategies`. -/
theorem strategy_table_immutable (s : SelfHealingSystem) (env : Env)
    (analysis : FailureAnalysis) (tok : String) :
    update_healing_strategies s analysis = s ∧
    (monitor_and_heal s env).1 = s ∧
    (SelfHealingSystem.init tok).healing_strategies = load_healing_strategies :=
  ⟨rfl, rfl, rfl⟩

theorem healGo_length (s : SelfHealingSystem) (env : Env) :
    ∀ l : List FailedAgent, (healGo s env l).1.length = l.length := by
  intro l
  induction l with
  | nil => rfl
  | cons a rest ih => simp [healGo, ih]

/-- C5: the success rate in the cycle summary is the number of successful healing
results divided by `max(number of results, 1)` times 100 (expressed here over
the output fields of the summary, using that one result is produced per failed agent);
the denominator is positive, and a cycle with no failed agents reports
`failed_agents = 0`, `healed_agents = 0` and a rate of 0. -/
theorem runCycle_success_rate (s : SelfHealingSystem) (env : Env) :
    ((monitor_and_heal s env).2.1.healing_success_rate =
        ((monitor_and_heal s env).2.1.healed_agents : ℚ) /
          ((max (monitor_and_heal s env).2.1.failed_agents 1 : Nat) : ℚ) * 100 ∧
      0 < max (monitor_and_heal s env).2.1.failed_agents 1) ∧
    ((detect_failed_agents env).1 = [] →
      (monitor_and_heal s env).2.1 =
        { failed_agents := 0, healed_agents := 0, healing_success_rate := 0 }) := by
  constructor
  · constructor
    · simp [monitor_and_heal, healGo_length]
    · exact Nat.lt_of_lt_of_le Nat.zero_lt_one (Nat.le_max_right _ 1)
  · intro h
    simp [monitor_and_heal, h, healGo]

/-- Environment in which the latest run of every repository is recent and
successful, so that no repository is classified unhealthy. -/
def healthyEnv : Env :=
  { now := 0,
    userResp := .ok (200, some "user"),
    getResp := fun _ => .ok { status := 200, workflow_runs := [⟨0, some "success"⟩] },
    postResp := fun _ => .ok 204 }

/-- Witness for C5 at a concrete all-healthy environment. -/
theorem runCycle_success_rate_witness :
    (monitor_and_heal (SelfHealingSystem.init "token") healthyEnv).2.1 =
      { failed_agents := 0, healed_agents := 0, healing_success_rate := 0 } :=
  (runCycle_success_rate (SelfHealingSystem.init "token") healthyEnv).2 rfl

theorem detectGo_trace_benign (env : Env) :
    ∀ l : List String,
      ((detectGo env l).2.all (fun e => !e.isAnalyze && !e.isHeal)) = true := by
  intro l
  induction l with
  | nil => rfl
  | cons r rest ih =>
      simp [detectGo, check_agent_health, List.all_append,
        Event.isAnalyze, Event.isHeal]
      rw [List.all_eq_true] at ih
      intro x hx
      have h2 := ih x hx
      rw [Bool.and_eq_true] at h2
      have h3 := And.intro h2.1 h2.2
      simpa [Event.isAnalyze, Event.isHeal] using h3

theorem takeWhile_append_all {α : Type} (p : α → Bool) (xs : List α) (y : α)
    (ys : List α) (hxs : xs.all p = true) (hy : p y = false) :
    (xs ++ y :: ys).takeWhile p = xs := by
  induction xs with
  | nil => simp [List.takeWhile_cons, hy]
  | cons x xs ih =>
      rw [List.all_cons, Bool.and_eq_true] at hxs
      simp [List.takeWhile_cons, hxs.1, ih hxs.2]

/-- C3 counterexample: in a concrete cycle where every repository is stale (so
all nine fail), the event trace of `monitor_and_heal` contains remediation
steps after the analyzer step — the orchestrator does not heal before
analyzing. -/
theorem monitor_heals_before_analyze_cex :
    ¬ remediationBeforeAnalysis
        (monitor_and_heal (SelfHealingSystem.init "token") staleEnv).2.2 := by
  unfold remediationBeforeAnalysis
  decide

/-- C3 amended: in every cycle the Failure Analyzer runs over the failed set
after all health checks and before any remediation step: no heal step precedes
the analyzer step in the trace of the cycle, and the analyzer step always occurs. -/
theorem monitor_analyzes_before_remediation (s : SelfHealingSystem) (env : Env) :
    (((monitor_and_heal s env).2.2.takeWhile (fun e => !e.isAnalyze)).all
        (fun e => !e.isHeal)) = true ∧
    Event.stepAnalyze ∈ (monitor_and_heal s env).2.2 := by
  have hben := detectGo_trace_benign env get_all_agent_repos
  have hallA : ((detectGo env get_all_agent_repos).2.all
      (fun e => !e.isAnalyze)) = true := by
    rw [List.all_eq_true] at hben ⊢
    intro e he
    have h2 := hben e he
    rw [Bool.and_eq_true] at h2
    exact h2.1
  have hallH : ((detectGo env get_all_agent_repos).2.all
      (fun e => !e.isHeal)) = true := by
    rw [List.all_eq_true] at hben ⊢
    intro e he
    have h2 := hben e he
    rw [Bool.and_eq_true] at h2
    exact h2.2
  have htr : (monitor_and_heal s env).2.2 =
      (detectGo env get_all_agent_repos).2 ++
        Event.stepAnalyze ::
          ((healGo s env (detectGo env get_all_agent_repos).1).2 ++
            [Event.stepUpdate]) := rfl
  constructor
  · rw [htr, takeWhile_append_all (fun e => !e.isAnalyze)
      (detectGo env get_all_agent_repos).2 Event.stepAnalyze
      ((healGo s env (detectGo env get_all_agent_repos).1).2 ++
        [Event.stepUpdate]) hallA rfl]
    exact hallH
  · rw [htr]
    exact List.mem_append_right _ (List.mem_cons_self _ _)

end SelfHealing
